import Mathlib

/-!
# Verification of the BaseAgent control loop (agents/agent/base_agent.py)

A shallow embedding of the agent control loop of this repository:

* `call_model` embeds `BaseAgent._call_model` (token pre-flight guard,
  warning-and-retry protocol, lazily created `_token_error_count`);
* `parse_tool_call` embeds `BaseAgent._parse_tool_call`;
* `extract_response_content` embeds `BaseAgent.extract_response_content`;
* `execute_loop` / `execute_plan` embed `BaseAgent._execute_plan`;
* `enforce_deliberation_stage` embeds `BaseAgent._enforce_deliberation_stage`;
* `process_user_input` embeds `BaseAgent.process_user_input`;
* `format_tool_result` embeds `BaseAgent._format_tool_result`;
* `end_execution_loop_tool` embeds the standalone function
  `end_execution_loop` of `agents/agent/base_agent_tools.py`.

External library calls (tiktoken token counting, the OpenAI chat completion
endpoint, `json.loads` / `json.dumps`, and the subclass tool-dispatch hook
`_handle_specific_tool`) are modelled as components of an `AgentEnv`
environment record; the embedded code is parametric in that environment.
The Python instance attributes touched by the control loop
(`deliberation_messages`, `execution_messages`, `user_input`,
`tools_description`, `total_tokens`, and the lazily created
`_token_error_count`) form the `AgentState` record; `net_calls` is an extra
instrumentation counter recording how many network requests were performed
(each request consumes the next answer of the `net` oracle).

Python exceptions are modelled with `Except`: `AgentError` enumerates the
exception outcomes the control loop can produce or propagate.  JSON argument
objects are modelled as string-to-string association lists (`ToolArgs`); the
values read by the control loop (the `summary` argument) are strings.
-/

deriving instance DecidableEq for Except

/-- Role tag of one conversation turn (the `role` key of a message dict). -/
inductive Role where
  | system
  | user
  | assistant
deriving DecidableEq

/-- One conversation turn: a role-tagged content string
(a `{"role": ..., "content": ...}` dict in the Python source). -/
structure Turn where
  role : Role
  content : String
deriving DecidableEq

/-- Arguments of a tool call, as decoded from JSON text:
a string-keyed mapping whose values (as read by the control loop) are strings. -/
abbrev ToolArgs := List (String × String)

/-- Opaque stand-in for an arbitrary Python value returned by a tool handler;
the control loop only passes it to the environment model of `json.dumps`. -/
abbrev Payload := String

/-- The `function` field of an OpenAI tool-call entry:
a name and the raw JSON text of the arguments. -/
structure ToolCallFunction where
  name : String
  arguments : String
deriving DecidableEq

/-- One tool-call entry of an OpenAI response (`tool_call.function...`). -/
structure ToolCallEntry where
  function : ToolCallFunction
deriving DecidableEq

/-- The `message` of an OpenAI response choice: assistant text content and
the (possibly empty) list of requested tool calls. -/
structure ChatMessage where
  content : String
  tool_calls : List ToolCallEntry
deriving DecidableEq

/-- One `choice` of an OpenAI chat-completion response. -/
structure ChatChoice where
  message : ChatMessage
deriving DecidableEq

/-- The `usage` record of an OpenAI response. -/
structure ChatUsage where
  total_tokens : Nat
deriving DecidableEq

/-- An OpenAI chat-completion response, restricted to the fields the
control loop reads: `choices` and `usage.total_tokens`. -/
structure ChatResponse where
  choices : List ChatChoice
  usage : ChatUsage
deriving DecidableEq

/-- Outcome of one network request to the chat-completion endpoint:
either a response or an exception raised by the client. -/
inductive NetOutcome where
  | ok (response : ChatResponse)
  | err (msg : String)
deriving DecidableEq

/-- Exception outcomes of the embedded control loop.

* `tokenLimit` — the `ValueError` raised on exhausting the token-budget
  retries (`"Repeated token limit errors. Unable to proceed."`);
* `invalidResponse` — the `ValueError` raised by `extract_response_content`
  on a malformed (or `None`) response object;
* `attributeError` — the `AttributeError` raised when `_parse_tool_call`
  dereferences a `None` response returned by `_call_model`;
* `net` — an exception raised by the network client (not a `ValueError`);
* `tool` — an exception raised by a subclass tool handler. -/
inductive AgentError where
  | tokenLimit
  | invalidResponse
  | attributeError
  | net (msg : String)
  | tool (msg : String)
deriving DecidableEq

/-- The environment of external collaborators the control loop calls into:
the tiktoken estimator, the network client (an oracle indexed by how many
requests were performed so far, and by the tools flag), `json.loads` on
argument text, `json.dumps` on argument mappings and on tool results, and
the subclass hook `_handle_specific_tool` (which may raise). -/
structure AgentEnv where
  estimate : String → Nat
  net : Nat → Bool → NetOutcome
  jsonParse : String → Option ToolArgs
  dumpArgs : ToolArgs → String
  dumpResult : Option Payload → Except String String
  handleTool : String → ToolArgs → Except String (Option Payload)

/-- The instance state of a `BaseAgent` touched by the control loop, plus the
`net_calls` instrumentation counter (number of network requests performed,
used to index the `net` oracle; not a Python attribute).
`token_error_count = none` models the `_token_error_count` attribute not yet
having been created (`hasattr` is false). -/
structure AgentState where
  deliberation_messages : List Turn
  execution_messages : List Turn
  user_input : Option String
  tools_description : String
  token_error_count : Option Nat
  total_tokens : Nat
  net_calls : Nat
deriving DecidableEq

/-- `BASE_SYSTEM_MESSAGE` (prompt text abbreviated: the wording of prompts is
out of scope, spec section 1, and only reaches the control flow through the
abstract token estimator). -/
def BASE_SYSTEM_MESSAGE : String :=
  "You are a specialized multi-stage agent designed to solve complex tasks by operating in two distinct stages."

/-- `DELIBERATION_MESSAGE` (prompt text abbreviated, as above). -/
def DELIBERATION_MESSAGE : String :=
  "You are in Stage 1: Deliberation Period (Tools Unavailable)."

/-- `EXECUTION_MESSAGE` (prompt text abbreviated, as above). -/
def EXECUTION_MESSAGE : String :=
  "You are now in Stage 2: Execution Loop (Tools Optional)."

/-- The warning appended by `_call_model` after a budget-exceeded failure. -/
def tokenLimitWarningMessage : String :=
  "Warning: The previous response exceeded the token limit. The next response must be shorter."

/-- The warning appended by `_execute_plan` when no function call is detected. -/
def noCallWarningMessage : String :=
  "Warning: You must call the function \x27end_execution_loop\x27 to finalize Execution Stage. No function calls were detected in your last response. Please either continue tool usage or call \x27end_execution_loop\x27 if you are finished."

/-- The confirmation request appended by `_execute_plan` while
`exit_attempts < final_checks` (an f-string interpolating `exit_attempts`). -/
def confirmation_message (exit_attempts : Nat) : String :=
  "Confirmation Needed: This is your attempt " ++ toString exit_attempts ++ " to end the Execution Loop. Are you positive this is the final answer? If so, submit a final `end_execution_loop` call. If not, please continue working to finalize the task.\nHINT: If you have a tool to check your progress, use it!"

/-- The system note appended when the iteration ceiling is reached. -/
def forcedTerminationMessage : String :=
  "Execution stopped due to reaching the maximum iteration limit."

/-- `BaseAgent.add_system_message`: append a system turn to a track. -/
def add_system_message (stage_messages : List Turn) (content : String) : List Turn :=
  stage_messages ++ [Turn.mk Role.system content]

/-- `BaseAgent.add_user_message`: append a user turn to a track. -/
def add_user_message (stage_messages : List Turn) (content : String) : List Turn :=
  stage_messages ++ [Turn.mk Role.user content]

/-- `BaseAgent.add_assistant_message`: append an assistant turn to a track. -/
def add_assistant_message (stage_messages : List Turn) (content : String) : List Turn :=
  stage_messages ++ [Turn.mk Role.assistant content]

/-- The fresh instance state `BaseAgent.__init__` leaves behind (tool loading
is external; its rendered description is the `tools_description` parameter):
both tracks start with the shared base system instruction, no user input yet,
zero token total, and the `_token_error_count` attribute not yet created. -/
def init_agent_state (tools_description : String) : AgentState :=
  { deliberation_messages := [Turn.mk Role.system BASE_SYSTEM_MESSAGE]
    execution_messages := [Turn.mk Role.system BASE_SYSTEM_MESSAGE]
    user_input := none
    tools_description := tools_description
    token_error_count := none
    total_tokens := 0
    net_calls := 0 }

/-- `"".join(msg["content"] for msg in messages if "content" in msg)`
(every modelled turn carries a content string). -/
def joinContents (messages : List Turn) : String :=
  String.join (messages.map (fun msg => msg.content))

/-- `BaseAgent._num_tokens_from_string`: tiktoken is abstracted by the
environment estimator (the encoding name is fixed to `"cl100k_base"` at the
only call site and does not vary). -/
def num_tokens_from_string (env : AgentEnv) (string : String) (_encoding_name : String) : Nat :=
  env.estimate string

/-- Python `dict.get(key, default)` on a decoded argument mapping. -/
def dictGet (arguments : ToolArgs) (key : String) (default : String) : String :=
  match arguments.find? (fun kv => kv.1 == key) with
  | some kv => kv.2
  | none => default

/-- `BaseAgent.extract_response_content`: reads
`response.choices[0].message.content`; an `AttributeError` (from a `None`
response) or `IndexError` (no choices) is converted to the
`"Invalid response object format"` `ValueError`. -/
def extract_response_content (response : Option ChatResponse) : Except AgentError String :=
  match response with
  | none => Except.error AgentError.invalidResponse
  | some r =>
    match r.choices with
    | [] => Except.error AgentError.invalidResponse
    | choice :: _ => Except.ok choice.message.content

/-- The body of the `while self._token_error_count < max_retries` loop of
`BaseAgent._call_model`, with the source's loop guard checked at every
entry.  The extra `fuel` argument is only a bound on the number of
iterations: every failing iteration (a budget failure, or a malformed
response raising out of the eager log-extraction) increments the counter
and a successful one returns, so the Python loop runs at most
`max_retries + 1` times;
`call_model` below supplies that bound, making the `fuel = 0` case
unreachable.  Result: the returned value of `_call_model` (`none` models the
implicit `None` returned when the guard is false on entry), the track (which
`_call_model` mutates by appending budget warnings), and the updated state. -/
def call_model_loop (env : AgentEnv) (use_tools : Bool) (max_retries : Nat) :
    Nat → List Turn → AgentState →
    (Except AgentError (Option ChatResponse)) × List Turn × AgentState
  | 0, track, st => (Except.ok none, track, st)
  | fuel + 1, track, st =>
    if st.token_error_count.getD 0 < max_retries then
      let str_messages := joinContents track
      let expected_tokens := num_tokens_from_string env str_messages ("cl100k_base")
      if expected_tokens > 13000 then
        -- the guard raises ValueError; control passes to the `except ValueError` handler
        let st1 := { st with token_error_count := some (st.token_error_count.getD 0 + 1) }
        if st1.token_error_count.getD 0 ≥ max_retries then
          (Except.error AgentError.tokenLimit, track, st1)
        else
          call_model_loop env use_tools max_retries fuel
            (add_system_message track tokenLimitWarningMessage) st1
      else
        -- one network request: `client.chat.completions.create(...)`
        match env.net st.net_calls use_tools with
        | NetOutcome.err msg =>
          (Except.error (AgentError.net msg), track, { st with net_calls := st.net_calls + 1 })
        | NetOutcome.ok response =>
          -- `logger.info(self.extract_response_content(response))` is evaluated inside
          -- the try: a malformed (empty-choices) response raises the invalid-format
          -- ValueError here, and the same `except ValueError` handler treats it as a
          -- retry failure (counter incremented, warning appended, call retried);
          -- `track_token_usage` and the counter reset are only reached past it
          match extract_response_content (some response) with
          | Except.error _ =>
            let st1 := { st with
                net_calls := st.net_calls + 1
                token_error_count := some (st.token_error_count.getD 0 + 1) }
            if st1.token_error_count.getD 0 ≥ max_retries then
              (Except.error AgentError.tokenLimit, track, st1)
            else
              call_model_loop env use_tools max_retries fuel
                (add_system_message track tokenLimitWarningMessage) st1
          | Except.ok _ =>
            (Except.ok (some response), track,
             { st with
                 net_calls := st.net_calls + 1
                 total_tokens := st.total_tokens + response.usage.total_tokens
                 token_error_count := some 0 })
    else
      (Except.ok none, track, st)

/-- `BaseAgent._call_model`.  First materializes the lazily created
`_token_error_count` attribute (`if not hasattr(...): ... = 0`), then runs
the retry loop with a sufficient iteration bound. -/
def call_model (env : AgentEnv) (messages : List Turn) (use_tools : Bool)
    (max_retries : Nat) (st : AgentState) :
    (Except AgentError (Option ChatResponse)) × List Turn × AgentState :=
  let st := { st with token_error_count := some (st.token_error_count.getD 0) }
  call_model_loop env use_tools max_retries (max_retries + 1) messages st

/-- `BaseAgent._parse_tool_call`: at most one tool call is extracted — the
first entry of the first choice; no choices, no tool calls, or a JSON decode
failure on the arguments text yield the no-call pair.  The Python function
returns the triple `(function_name, arguments, response)`; the first two
components are `None` together, so they are fused into one `Option`. -/
def parse_tool_call (env : AgentEnv) (response : ChatResponse) :
    Option (String × ToolArgs) × ChatResponse :=
  match response.choices with
  | [] => (none, response)
  | choice :: _ =>
    match choice.message.tool_calls with
    | [] => (none, response)
    | tool_call :: _ =>
      match env.jsonParse tool_call.function.arguments with
      | none => (none, response)
      | some arguments => (some (tool_call.function.name, arguments), response)

/-- `BaseAgent._format_tool_result`: `json.dumps` the payload (via the
environment), truncating at `max_length` characters; a serialization error
(`TypeError` / `ValueError`) is converted to an apology string. -/
def format_tool_result (env : AgentEnv) (tool_result : Option Payload)
    (max_length : Nat) : String :=
  match env.dumpResult tool_result with
  | Except.ok formatted_result =>
    if formatted_result.length > max_length then
      (String.take formatted_result max_length) ++ ("... [truncated]")
    else
      formatted_result
  | Except.error e => ("Unable to format tool result: ") ++ e

/-- The code following the `while` loop of `BaseAgent._execute_plan`
(reached both by the guard becoming false and by `break`): if the iteration
ceiling was reached, append the forced-termination system turn; return the
accumulated `exit_statement`. -/
def finish_execution (max_iterations iteration_count : Nat) (exit_statement : String)
    (track : List Turn) (st : AgentState) :
    (Except AgentError String) × List Turn × AgentState :=
  if iteration_count ≥ max_iterations then
    (Except.ok exit_statement, add_system_message track forcedTerminationMessage, st)
  else
    (Except.ok exit_statement, track, st)

/-- The `while iteration_count < max_iterations` loop of
`BaseAgent._execute_plan`, guard checked at every entry; `fuel` is again
only an iteration bound (every continuing path increments
`iteration_count`, so `max_iterations + 1` iterations suffice;
`execute_plan` supplies that bound and the `fuel = 0` case is unreachable
from it).  The body mirrors the source: model call, tool-call parse, the
no-call warning branch (`if not function_name`, which covers both `None`
and the empty string), the `end_execution_loop` branch with its placeholder
summary and exit-confirmation sub-protocol, the generic tool dispatch
branch, and the fail-fast `except Exception: raise` (errors propagate). -/
def execute_loop (env : AgentEnv) (max_iterations final_checks : Nat) :
    Nat → Nat → Nat → String → List Turn → AgentState →
    (Except AgentError String) × List Turn × AgentState
  | 0, iteration_count, _, exit_statement, track, st =>
    finish_execution max_iterations iteration_count exit_statement track st
  | fuel + 1, iteration_count, exit_attempts, exit_statement, track, st =>
    if iteration_count < max_iterations then
      match call_model env track true 5 st with
      | (Except.error e, track1, st1) =>
        -- `except Exception as e: raise(e)` — propagated to the caller
        (Except.error e, track1, st1)
      | (Except.ok none, track1, st1) =>
        -- `_parse_tool_call(None)` dereferences a None response: AttributeError
        (Except.error AgentError.attributeError, track1, st1)
      | (Except.ok (some response), track1, st1) =>
        match (parse_tool_call env response).1 with
        | none =>
          execute_loop env max_iterations final_checks fuel (iteration_count + 1)
            exit_attempts exit_statement
            (add_system_message track1 noCallWarningMessage) st1
        | some (function_name, arguments) =>
          if function_name = ("") then
            -- `if not function_name` is also true for an empty name
            execute_loop env max_iterations final_checks fuel (iteration_count + 1)
              exit_attempts exit_statement
              (add_system_message track1 noCallWarningMessage) st1
          else if function_name = ("end_execution_loop") then
            let exit_statement := dictGet arguments ("summary") ("")
            let exit_statement :=
              if exit_statement = ("") then
                ("No summary provided by end_execution_loop.")
              else exit_statement
            let track2 := add_assistant_message track1
              (("[end_execution_loop] Summary: ") ++ exit_statement)
            if exit_attempts < final_checks then
              execute_loop env max_iterations final_checks fuel (iteration_count + 1)
                (exit_attempts + 1) exit_statement
                (add_system_message track2 (confirmation_message exit_attempts)) st1
            else
              -- `break`: final exit confirmed; fall through to the post-loop code
              finish_execution max_iterations iteration_count exit_statement track2 st1
          else
            match env.handleTool function_name arguments with
            | Except.error m =>
              -- the tool handler raised; `except Exception: raise` propagates it
              (Except.error (AgentError.tool m), track1, st1)
            | Except.ok tool_result =>
              let formatted_result := format_tool_result env tool_result 1000
              execute_loop env max_iterations final_checks fuel (iteration_count + 1)
                exit_attempts exit_statement
                (add_system_message track1
                  (("Function called: ") ++ function_name ++ ("\nArguments passed: ") ++
                   env.dumpArgs arguments ++ ("\nResult:\n") ++ formatted_result)) st1
    else
      finish_execution max_iterations iteration_count exit_statement track st

/-- `BaseAgent._execute_plan`: appends the execution-stage instruction, the
original user input, and the wrapped plan to the execution track, then runs
the execution loop from `iteration_count = 0`, `exit_attempts = 0`,
`exit_statement = ""`.  The mutated track is stored back into the state. -/
def execute_plan (env : AgentEnv) (plan_content : String)
    (max_iterations final_checks : Nat) (st : AgentState) :
    (Except AgentError String) × AgentState :=
  let track := add_system_message st.execution_messages EXECUTION_MESSAGE
  let track := add_user_message track (st.user_input.getD (""))
  let track := add_system_message track (("Deliberation Plan: ") ++ plan_content)
  let r := execute_loop env max_iterations final_checks (max_iterations + 1) 0 0 ("") track st
  (r.1, { r.2.2 with execution_messages := r.2.1 })

/-- `BaseAgent._enforce_deliberation_stage`: appends the deliberation
instruction, the user input, and the tool-catalog description to the
deliberation track, calls the model with tools disabled, extracts the plan
and records it back as an assistant turn.  Exceptions (budget exhaustion,
network failure, malformed response) propagate; the track mutations made so
far persist on the instance. -/
def enforce_deliberation_stage (env : AgentEnv) (st : AgentState) :
    (Except AgentError String) × AgentState :=
  let track := add_system_message st.deliberation_messages DELIBERATION_MESSAGE
  let track := add_user_message track (st.user_input.getD (""))
  let track := add_system_message track st.tools_description
  match call_model env track false 5 st with
  | (Except.error e, track1, st1) =>
    (Except.error e, { st1 with deliberation_messages := track1 })
  | (Except.ok response, track1, st1) =>
    match extract_response_content response with
    | Except.error e => (Except.error e, { st1 with deliberation_messages := track1 })
    | Except.ok plan_content =>
      (Except.ok plan_content,
       { st1 with deliberation_messages := add_assistant_message track1 plan_content })

/-- `BaseAgent.process_user_input`: stores the user input, runs deliberation
(no tools), appends the user message to the execution track, and runs the
execution stage with the defaults `max_iterations = 99`, `final_checks = 0`. -/
def process_user_input (env : AgentEnv) (st : AgentState) (user_message : String) :
    (Except AgentError String) × AgentState :=
  let st := { st with user_input := some user_message }
  match enforce_deliberation_stage env st with
  | (Except.error e, st1) => (Except.error e, st1)
  | (Except.ok plan_content, st1) =>
    let st2 := { st1 with
      execution_messages := add_user_message st1.execution_messages user_message }
    execute_plan env plan_content 99 0 st2

/-- The standalone `end_execution_loop` function of
`agents/agent/base_agent_tools.py`: raises `ValueError` on an empty summary,
otherwise returns the standardized status dict.  (The execution loop of
`base_agent.py` handles the `"end_execution_loop"` tool name inline and
never calls this function.) -/
def end_execution_loop_tool (summary : String) : Except String (List (String × String)) :=
  if summary = ("") then
    Except.error ("The \x27summary\x27 parameter is required and cannot be empty.")
  else
    Except.ok [(("status"), ("Execution loop completed")), (("summary"), summary)]

/-- The system warning turn `_call_model` appends after a budget failure. -/
def tokenWarnTurn : Turn := Turn.mk Role.system tokenLimitWarningMessage

/-- `n` consecutive budget-warning turns. -/
def warnTurns (n : Nat) : List Turn := List.replicate n tokenWarnTurn

/-- The turns appended by a run of `k` refused exit attempts followed by one
accepted `end_execution_loop` call with summary `summary`: each refused
attempt leaves the echoed summary and a confirmation request (numbered by
the `exit_attempts` value at that moment, starting at `ea`), the accepted
one leaves just the echoed summary. -/
def end_rounds (summary : String) : Nat → Nat → List Turn
  | _, 0 =>
    [Turn.mk Role.assistant (("[end_execution_loop] Summary: ") ++ summary)]
  | ea, k + 1 =>
    Turn.mk Role.assistant (("[end_execution_loop] Summary: ") ++ summary) ::
      Turn.mk Role.system (confirmation_message ea) :: end_rounds summary (ea + 1) k


/-- The value of the `end_execution_loop` branch of one execution-loop
iteration (summary extraction with placeholder fallback, assistant echo,
exit-confirmation check, `break` into the post-loop code). -/
def end_branch_result (env : AgentEnv) (mi fc fuel ic ea : Nat) (args : ToolArgs)
    (track1 : List Turn) (st1 : AgentState) :
    (Except AgentError String) × List Turn × AgentState :=
  let exit_statement := dictGet args ("summary") ("")
  let exit_statement :=
    if exit_statement = ("") then ("No summary provided by end_execution_loop.")
    else exit_statement
  let track2 := add_assistant_message track1
    (("[end_execution_loop] Summary: ") ++ exit_statement)
  if ea < fc then
    execute_loop env mi fc fuel (ic + 1) (ea + 1) exit_statement
      (add_system_message track2 (confirmation_message ea)) st1
  else
    finish_execution mi ic exit_statement track2 st1


/-!
## Concrete fixtures

Concrete responses and environments used to evaluate the embedded code on
explicit inputs (counterexamples and witnesses).
-/

/-- A response carrying plain assistant text and no tool calls. -/
def respPlan : ChatResponse :=
  { choices := [{ message := { content := ("the plan"), tool_calls := [] } }]
    usage := { total_tokens := 7 } }

/-- A response requesting `end_execution_loop` with arguments text `A1`. -/
def respEndDone : ChatResponse :=
  { choices :=
      [{ message :=
          { content := ("")
            tool_calls := [{ function := { name := ("end_execution_loop"), arguments := ("A1") } }] } }]
    usage := { total_tokens := 5 } }

/-- A response requesting `end_execution_loop` with arguments text `A0`
(which decodes to an empty mapping: no `summary` argument). -/
def respEndEmpty : ChatResponse :=
  { choices :=
      [{ message :=
          { content := ("")
            tool_calls := [{ function := { name := ("end_execution_loop"), arguments := ("A0") } }] } }]
    usage := { total_tokens := 5 } }

/-- A response carrying two simultaneous tool calls (and a second choice). -/
def respTwoCalls : ChatResponse :=
  { choices :=
      [{ message :=
          { content := ("")
            tool_calls :=
              [{ function := { name := ("alpha"), arguments := ("A2") } },
               { function := { name := ("beta"), arguments := ("A1") } }] } },
       { message := { content := ("second choice"), tool_calls := [] } }]
    usage := { total_tokens := 3 } }

/-- A response requesting one generic tool call (`echo`). -/
def respToolCall : ChatResponse :=
  { choices :=
      [{ message :=
          { content := ("")
            tool_calls := [{ function := { name := ("echo"), arguments := ("A2") } }] } }]
    usage := { total_tokens := 4 } }

/-- A response whose single tool call carries undecodable arguments text. -/
def respBadJson : ChatResponse :=
  { choices :=
      [{ message :=
          { content := ("")
            tool_calls := [{ function := { name := ("gamma"), arguments := ("Z9") } }] } }]
    usage := { total_tokens := 4 } }

/-- A fixed `json.loads` model for the arguments texts of the fixtures. -/
def jsonParseFix : String → Option ToolArgs := fun a =>
  if a = ("A0") then some []
  else if a = ("A1") then some [(("summary"), ("done"))]
  else if a = ("A2") then some [(("x"), ("1"))]
  else none

/-- Environment whose token estimate is always over the 13000 ceiling. -/
def envBudget : AgentEnv :=
  { estimate := fun _ => 20000
    net := fun _ _ => NetOutcome.ok respPlan
    jsonParse := jsonParseFix
    dumpArgs := fun _ => ("args")
    dumpResult := fun _ => Except.ok ("null")
    handleTool := fun _ _ => Except.ok none }

/-- Environment for a successful run: deliberation yields a plan, every
execution call requests `end_execution_loop(summary="done")`. -/
def envHappy : AgentEnv :=
  { estimate := fun _ => 0
    net := fun i _ => if i = 0 then NetOutcome.ok respPlan else NetOutcome.ok respEndDone
    jsonParse := jsonParseFix
    dumpArgs := fun _ => ("args")
    dumpResult := fun _ => Except.ok ("null")
    handleTool := fun _ _ => Except.ok none }

/-- Environment in which the execution stage requests `end_execution_loop`
without a summary argument. -/
def envEmptySummary : AgentEnv :=
  { estimate := fun _ => 0
    net := fun i _ => if i = 0 then NetOutcome.ok respPlan else NetOutcome.ok respEndEmpty
    jsonParse := jsonParseFix
    dumpArgs := fun _ => ("args")
    dumpResult := fun _ => Except.ok ("null")
    handleTool := fun _ _ => Except.ok none }

/-- Environment whose model never requests any tool call. -/
def envNoCall : AgentEnv :=
  { estimate := fun _ => 0
    net := fun _ _ => NetOutcome.ok respPlan
    jsonParse := jsonParseFix
    dumpArgs := fun _ => ("args")
    dumpResult := fun _ => Except.ok ("null")
    handleTool := fun _ _ => Except.ok none }

/-- Environment whose model always requests `end_execution_loop("done")`. -/
def envEndAlways : AgentEnv :=
  { estimate := fun _ => 0
    net := fun _ _ => NetOutcome.ok respEndDone
    jsonParse := jsonParseFix
    dumpArgs := fun _ => ("args")
    dumpResult := fun _ => Except.ok ("null")
    handleTool := fun _ _ => Except.ok none }

/-- Environment whose model requests the `echo` tool and whose tool handler
raises. -/
def envToolErr : AgentEnv :=
  { estimate := fun _ => 0
    net := fun _ _ => NetOutcome.ok respToolCall
    jsonParse := jsonParseFix
    dumpArgs := fun _ => ("args")
    dumpResult := fun _ => Except.ok ("null")
    handleTool := fun _ _ => Except.error ("boom") }

/-- Environment whose network client always raises. -/
def envNetErr : AgentEnv :=
  { estimate := fun _ => 0
    net := fun _ _ => NetOutcome.err ("down")
    jsonParse := jsonParseFix
    dumpArgs := fun _ => ("args")
    dumpResult := fun _ => Except.ok ("null")
    handleTool := fun _ _ => Except.ok none }

/-- Environment over budget exactly on very short track texts, so that one
budget failure (which appends the long warning turn) is followed by an
in-budget attempt. -/
def envOneFail : AgentEnv :=
  { estimate := fun s => if s.length ≤ 1 then 20000 else 0
    net := fun _ _ => NetOutcome.ok respPlan
    jsonParse := jsonParseFix
    dumpArgs := fun _ => ("args")
    dumpResult := fun _ => Except.ok ("null")
    handleTool := fun _ _ => Except.ok none }

/-- The instance state after the deliberation stage of
`process_user_input envHappy (init_agent_state "") "task"`: the deliberation
track carries the stage setup and the plan, one network request was
performed, and the retry counter was materialized at zero. -/
def stAfterDelib : AgentState :=
  { deliberation_messages :=
      [Turn.mk Role.system BASE_SYSTEM_MESSAGE, Turn.mk Role.system DELIBERATION_MESSAGE,
       Turn.mk Role.user ("task"), Turn.mk Role.system (""),
       Turn.mk Role.assistant ("the plan")]
    execution_messages := [Turn.mk Role.system BASE_SYSTEM_MESSAGE]
    user_input := some ("task")
    tools_description := ("")
    token_error_count := some 0
    total_tokens := 7
    net_calls := 1 }

/-!
## Helper definitions and lemmas
-/

theorem warnTurns_zero : warnTurns 0 = [] := rfl

theorem warnTurns_snoc_comm (track : List Turn) (i : Nat) :
    (track ++ [tokenWarnTurn]) ++ warnTurns i = track ++ warnTurns (i + 1) := by
  simp [warnTurns, List.replicate_succ, List.append_assoc]

/-- The retry loop is insensitive to extra fuel once the fuel covers the
remaining retry budget. -/
theorem call_model_loop_fuel_succ (env : AgentEnv) (use_tools : Bool) (max_retries : Nat) :
    ∀ fuel track st, max_retries ≤ st.token_error_count.getD 0 + fuel →
      call_model_loop env use_tools max_retries fuel track st =
        call_model_loop env use_tools max_retries (fuel + 1) track st := by
  intro fuel
  induction fuel with
  | zero =>
    intro track st h
    simp only [call_model_loop]
    rw [if_neg (by omega)]
  | succ f ih =>
    intro track st h
    conv_lhs => rw [call_model_loop]
    conv_rhs => rw [call_model_loop]
    by_cases hg : st.token_error_count.getD 0 < max_retries
    · rw [if_pos hg, if_pos hg]
      by_cases hov :
          num_tokens_from_string env (joinContents track) ("cl100k_base") > 13000
      · rw [if_pos hov, if_pos hov]
        by_cases hmax :
            (some (st.token_error_count.getD 0 + 1) : Option Nat).getD 0 ≥ max_retries
        · rw [if_pos hmax, if_pos hmax]
        · rw [if_neg hmax, if_neg hmax]
          apply ih
          simp only [Option.getD_some] at hmax ⊢
          omega
      · rw [if_neg hov, if_neg hov]
        cases hnet : env.net st.net_calls use_tools with
        | err m => rfl
        | ok r =>
          dsimp only
          cases hex : extract_response_content (some r) with
          | ok c => rfl
          | error e =>
            by_cases hmax :
                (some (st.token_error_count.getD 0 + 1) : Option Nat).getD 0 ≥ max_retries
            · rw [if_pos hmax, if_pos hmax]
            · rw [if_neg hmax, if_neg hmax]
              apply ih
              simp
              omega
    · rw [if_neg hg, if_neg hg]

/-- Exhaustion run of the retry loop: if every retry attempt stays over
budget, the loop raises the budget-exceeded error after appending one
warning per non-final failure, leaving the counter at `max_retries`. -/
theorem call_model_loop_all_over (env : AgentEnv) (use_tools : Bool) (max_retries : Nat) :
    ∀ k fuel track st,
      st.token_error_count.getD 0 + k = max_retries → 0 < k → k ≤ fuel →
      (∀ i, i < k → env.estimate (joinContents (track ++ warnTurns i)) > 13000) →
      call_model_loop env use_tools max_retries fuel track st =
        (Except.error AgentError.tokenLimit, track ++ warnTurns (k - 1),
         { st with token_error_count := some max_retries }) := by
  intro k
  induction k with
  | zero => omega
  | succ j ih =>
    intro fuel track st hsum hpos hfuel hover
    obtain ⟨f, rfl⟩ : ∃ f, fuel = f + 1 := ⟨fuel - 1, by omega⟩
    simp only [call_model_loop]
    rw [if_pos (by omega)]
    have h0 := hover 0 (by omega)
    rw [warnTurns_zero, List.append_nil] at h0
    rw [if_pos (by simpa [num_tokens_from_string] using h0)]
    by_cases hj : j = 0
    · subst hj
      rw [if_pos (by simp; omega)]
      have hw : warnTurns (0 + 1 - 1) = ([] : List Turn) := rfl
      rw [hw, List.append_nil]
      have hm : st.token_error_count.getD 0 + 1 = max_retries := by omega
      rw [hm]
    · rw [if_neg (by simp; omega)]
      have step := ih f (add_system_message track tokenLimitWarningMessage)
        { st with token_error_count := some (st.token_error_count.getD 0 + 1) }
        (by simp; omega) (by omega) (by omega)
        (by
          intro i hi
          have := hover (i + 1) (by omega)
          simpa [add_system_message, tokenWarnTurn, warnTurns_snoc_comm] using this)
      rw [step]
      have h1 : add_system_message track tokenLimitWarningMessage =
          track ++ [tokenWarnTurn] := rfl
      have h2 : j - 1 + 1 = j + 1 - 1 := by omega
      rw [h1, warnTurns_snoc_comm, h2]

/-- Successful run of the retry loop: `k` consecutive over-budget failures
followed by an in-budget attempt whose network request succeeds return the
response, leave `k` warnings on the track, and reset the counter to zero. -/
theorem call_model_loop_success (env : AgentEnv) (use_tools : Bool) (max_retries : Nat)
    (resp : ChatResponse) (hwf : resp.choices ≠ []) :
    ∀ k fuel track st,
      st.token_error_count.getD 0 + k < max_retries →
      max_retries ≤ st.token_error_count.getD 0 + fuel →
      (∀ i, i < k → env.estimate (joinContents (track ++ warnTurns i)) > 13000) →
      env.estimate (joinContents (track ++ warnTurns k)) ≤ 13000 →
      env.net st.net_calls use_tools = NetOutcome.ok resp →
      call_model_loop env use_tools max_retries fuel track st =
        (Except.ok (some resp), track ++ warnTurns k,
         { st with
             token_error_count := some 0
             total_tokens := st.total_tokens + resp.usage.total_tokens
             net_calls := st.net_calls + 1 }) := by
  obtain ⟨c, rest, hcr⟩ := List.exists_cons_of_ne_nil hwf
  have hex : extract_response_content (some resp) = Except.ok c.message.content := by
    simp [extract_response_content, hcr]
  intro k
  induction k with
  | zero =>
    intro fuel track st hlt hfuel _hover hunder hnet
    obtain ⟨f, rfl⟩ : ∃ f, fuel = f + 1 := ⟨fuel - 1, by omega⟩
    simp only [call_model_loop]
    rw [if_pos (by omega)]
    rw [warnTurns_zero, List.append_nil] at hunder
    rw [if_neg (by simp [num_tokens_from_string]; omega)]
    rw [hnet]
    simp [warnTurns_zero, hex]
  | succ j ih =>
    intro fuel track st hlt hfuel hover hunder hnet
    obtain ⟨f, rfl⟩ : ∃ f, fuel = f + 1 := ⟨fuel - 1, by omega⟩
    simp only [call_model_loop]
    rw [if_pos (by omega)]
    have h0 := hover 0 (by omega)
    rw [warnTurns_zero, List.append_nil] at h0
    rw [if_pos (by simpa [num_tokens_from_string] using h0)]
    rw [if_neg (by simp; omega)]
    have step := ih f (add_system_message track tokenLimitWarningMessage)
      { st with token_error_count := some (st.token_error_count.getD 0 + 1) }
      (by simp; omega) (by simp; omega)
      (by
        intro i hi
        have := hover (i + 1) (by omega)
        simpa [add_system_message, tokenWarnTurn, warnTurns_snoc_comm] using this)
      (by
        have h1 : add_system_message track tokenLimitWarningMessage =
            track ++ [tokenWarnTurn] := rfl
        rw [h1, warnTurns_snoc_comm]
        exact hunder)
      (by simpa using hnet)
    rw [step]
    have h1 : add_system_message track tokenLimitWarningMessage =
        track ++ [tokenWarnTurn] := rfl
    rw [h1, warnTurns_snoc_comm]

/-- `_call_model` under exhaustion: starting from counter value `t < max_retries`,
if every retry attempt stays over budget the call raises the budget error. -/
theorem call_model_all_over (env : AgentEnv) (use_tools : Bool) (max_retries : Nat)
    (track : List Turn) (st : AgentState)
    (hlt : st.token_error_count.getD 0 < max_retries)
    (hover : ∀ i, i < max_retries - st.token_error_count.getD 0 →
      env.estimate (joinContents (track ++ warnTurns i)) > 13000) :
    call_model env track use_tools max_retries st =
      (Except.error AgentError.tokenLimit,
       track ++ warnTurns (max_retries - st.token_error_count.getD 0 - 1),
       { st with token_error_count := some max_retries }) := by
  show call_model_loop env use_tools max_retries (max_retries + 1) track
      { st with token_error_count := some (st.token_error_count.getD 0) } = _
  rw [call_model_loop_all_over env use_tools max_retries
    (max_retries - st.token_error_count.getD 0) (max_retries + 1) track
    { st with token_error_count := some (st.token_error_count.getD 0) }
    (by simp; omega) (by omega) (by omega) (by simpa using hover)]

/-- `_call_model` succeeding after `k` budget failures: the response is
returned, `k` warnings are left on the track, and the counter resets to 0. -/
theorem call_model_success (env : AgentEnv) (use_tools : Bool) (max_retries : Nat)
    (resp : ChatResponse) (hwf : resp.choices ≠ []) (k : Nat) (track : List Turn)
    (st : AgentState)
    (hlt : st.token_error_count.getD 0 + k < max_retries)
    (hover : ∀ i, i < k → env.estimate (joinContents (track ++ warnTurns i)) > 13000)
    (hunder : env.estimate (joinContents (track ++ warnTurns k)) ≤ 13000)
    (hnet : env.net st.net_calls use_tools = NetOutcome.ok resp) :
    call_model env track use_tools max_retries st =
      (Except.ok (some resp), track ++ warnTurns k,
       { st with
           token_error_count := some 0
           total_tokens := st.total_tokens + resp.usage.total_tokens
           net_calls := st.net_calls + 1 }) := by
  show call_model_loop env use_tools max_retries (max_retries + 1) track
      { st with token_error_count := some (st.token_error_count.getD 0) } = _
  rw [call_model_loop_success env use_tools max_retries resp hwf k (max_retries + 1) track
    { st with token_error_count := some (st.token_error_count.getD 0) }
    (by simp; omega) (by simp; omega) (by simpa using hover) (by simpa using hunder)
    (by simpa using hnet)]

/-- Special case: in-budget first attempt with a successful network request. -/
theorem call_model_under_budget (env : AgentEnv) (use_tools : Bool) (max_retries : Nat)
    (resp : ChatResponse) (hwf : resp.choices ≠ []) (track : List Turn) (st : AgentState)
    (hlt : st.token_error_count.getD 0 < max_retries)
    (hunder : env.estimate (joinContents track) ≤ 13000)
    (hnet : env.net st.net_calls use_tools = NetOutcome.ok resp) :
    call_model env track use_tools max_retries st =
      (Except.ok (some resp), track,
       { st with
           token_error_count := some 0
           total_tokens := st.total_tokens + resp.usage.total_tokens
           net_calls := st.net_calls + 1 }) := by
  have := call_model_success env use_tools max_retries resp hwf 0 track st
    (by omega) (by omega) (by simpa [warnTurns_zero] using hunder) hnet
  simpa [warnTurns_zero] using this

/-- The retry loop touches only the counter, the token total and the request
counter: the two tracks stored on the instance, the saved user input and the
tools description are untouched. -/
theorem call_model_loop_preserves (env : AgentEnv) (use_tools : Bool) (max_retries : Nat) :
    ∀ fuel track st,
      ((call_model_loop env use_tools max_retries fuel track st).2.2.deliberation_messages =
          st.deliberation_messages ∧
        (call_model_loop env use_tools max_retries fuel track st).2.2.execution_messages =
          st.execution_messages) ∧
      ((call_model_loop env use_tools max_retries fuel track st).2.2.user_input =
          st.user_input ∧
        (call_model_loop env use_tools max_retries fuel track st).2.2.tools_description =
          st.tools_description) := by
  intro fuel
  induction fuel with
  | zero => intro track st; simp [call_model_loop]
  | succ f ih =>
    intro track st
    simp only [call_model_loop]
    by_cases hg : st.token_error_count.getD 0 < max_retries
    · rw [if_pos hg]
      by_cases hov :
          num_tokens_from_string env (joinContents track) ("cl100k_base") > 13000
      · rw [if_pos hov]
        by_cases hmax :
            (some (st.token_error_count.getD 0 + 1) : Option Nat).getD 0 ≥ max_retries
        · rw [if_pos hmax]
          simp
        · rw [if_neg hmax]
          simpa using ih (add_system_message track tokenLimitWarningMessage)
            { st with token_error_count := some (st.token_error_count.getD 0 + 1) }
      · rw [if_neg hov]
        cases hnet : env.net st.net_calls use_tools with
        | err m => simp
        | ok r =>
          dsimp only
          cases hex : extract_response_content (some r) with
          | ok c => simp
          | error e =>
            by_cases hmax :
                (some (st.token_error_count.getD 0 + 1) : Option Nat).getD 0 ≥ max_retries
            · rw [if_pos hmax]
              simp
            · rw [if_neg hmax]
              simpa using ih (add_system_message track tokenLimitWarningMessage)
                { st with
                    net_calls := st.net_calls + 1
                    token_error_count := some (st.token_error_count.getD 0 + 1) }
    · rw [if_neg hg]
      simp

/-- `_call_model` preserves the same four instance fields. -/
theorem call_model_preserves (env : AgentEnv) (messages : List Turn) (use_tools : Bool)
    (max_retries : Nat) (st : AgentState) :
    ((call_model env messages use_tools max_retries st).2.2.deliberation_messages =
        st.deliberation_messages ∧
      (call_model env messages use_tools max_retries st).2.2.execution_messages =
        st.execution_messages) ∧
    ((call_model env messages use_tools max_retries st).2.2.user_input = st.user_input ∧
      (call_model env messages use_tools max_retries st).2.2.tools_description =
        st.tools_description) := by
  simpa using call_model_loop_preserves env use_tools max_retries (max_retries + 1) messages
    { st with token_error_count := some (st.token_error_count.getD 0) }

/-- One-step reduction: the model call raised — the exception propagates. -/
theorem execute_loop_step_err (env : AgentEnv) (mi fc fuel ic ea : Nat) (es : String)
    (track : List Turn) (st : AgentState) (e : AgentError) (track1 : List Turn)
    (st1 : AgentState) (hic : ic < mi)
    (hcm : call_model env track true 5 st = (Except.error e, track1, st1)) :
    execute_loop env mi fc (fuel + 1) ic ea es track st = (Except.error e, track1, st1) := by
  simp only [execute_loop]
  rw [if_pos hic, hcm]

/-- One-step reduction: the model call fell through its retry loop and
returned `None`; parsing it raises `AttributeError`. -/
theorem execute_loop_step_none (env : AgentEnv) (mi fc fuel ic ea : Nat) (es : String)
    (track : List Turn) (st : AgentState) (track1 : List Turn)
    (st1 : AgentState) (hic : ic < mi)
    (hcm : call_model env track true 5 st = (Except.ok none, track1, st1)) :
    execute_loop env mi fc (fuel + 1) ic ea es track st =
      (Except.error AgentError.attributeError, track1, st1) := by
  simp only [execute_loop]
  rw [if_pos hic, hcm]

/-- One-step reduction: no tool call was parsed — warn and continue. -/
theorem execute_loop_step_nocall (env : AgentEnv) (mi fc fuel ic ea : Nat) (es : String)
    (track : List Turn) (st : AgentState) (resp : ChatResponse) (track1 : List Turn)
    (st1 : AgentState) (hic : ic < mi)
    (hcm : call_model env track true 5 st = (Except.ok (some resp), track1, st1))
    (hp : (parse_tool_call env resp).1 = none) :
    execute_loop env mi fc (fuel + 1) ic ea es track st =
      execute_loop env mi fc fuel (ic + 1) ea es
        (add_system_message track1 noCallWarningMessage) st1 := by
  simp only [execute_loop]
  rw [if_pos hic, hcm]
  dsimp only
  rw [hp]

/-- One-step reduction: the parsed tool call is `end_execution_loop`. -/
theorem execute_loop_step_end (env : AgentEnv) (mi fc fuel ic ea : Nat) (es : String)
    (track : List Turn) (st : AgentState) (resp : ChatResponse) (track1 : List Turn)
    (st1 : AgentState) (args : ToolArgs) (hic : ic < mi)
    (hcm : call_model env track true 5 st = (Except.ok (some resp), track1, st1))
    (hp : (parse_tool_call env resp).1 = some ((("end_execution_loop") : String), args)) :
    execute_loop env mi fc (fuel + 1) ic ea es track st =
      end_branch_result env mi fc fuel ic ea args track1 st1 := by
  simp only [execute_loop]
  rw [if_pos hic, hcm]
  dsimp only
  rw [hp]
  dsimp only
  rw [if_neg (show ¬ (("end_execution_loop") : String) = ("") from by decide)]
  rw [if_pos (show (("end_execution_loop") : String) = ("end_execution_loop") from rfl)]
  rfl

/-- One-step reduction: a generic tool call whose handler raised. -/
theorem execute_loop_step_tool_err (env : AgentEnv) (mi fc fuel ic ea : Nat) (es : String)
    (track : List Turn) (st : AgentState) (resp : ChatResponse) (track1 : List Turn)
    (st1 : AgentState) (fname : String) (args : ToolArgs) (m : String) (hic : ic < mi)
    (hcm : call_model env track true 5 st = (Except.ok (some resp), track1, st1))
    (hp : (parse_tool_call env resp).1 = some (fname, args))
    (hne1 : fname ≠ (""))
    (hne2 : fname ≠ ("end_execution_loop"))
    (htool : env.handleTool fname args = Except.error m) :
    execute_loop env mi fc (fuel + 1) ic ea es track st =
      (Except.error (AgentError.tool m), track1, st1) := by
  simp only [execute_loop]
  rw [if_pos hic, hcm]
  dsimp only
  rw [hp]
  dsimp only
  rw [if_neg hne1, if_neg hne2, htool]

/-- One-step reduction: a generic tool call whose handler returned — the
call, its arguments and the formatted result are logged and the loop
continues. -/
theorem execute_loop_step_tool_ok (env : AgentEnv) (mi fc fuel ic ea : Nat) (es : String)
    (track : List Turn) (st : AgentState) (resp : ChatResponse) (track1 : List Turn)
    (st1 : AgentState) (fname : String) (args : ToolArgs) (res : Option Payload)
    (hic : ic < mi)
    (hcm : call_model env track true 5 st = (Except.ok (some resp), track1, st1))
    (hp : (parse_tool_call env resp).1 = some (fname, args))
    (hne1 : fname ≠ (""))
    (hne2 : fname ≠ ("end_execution_loop"))
    (htool : env.handleTool fname args = Except.ok res) :
    execute_loop env mi fc (fuel + 1) ic ea es track st =
      execute_loop env mi fc fuel (ic + 1) ea es
        (add_system_message track1
          (("Function called: ") ++ fname ++ ("\nArguments passed: ") ++
            env.dumpArgs args ++ ("\nResult:\n") ++ format_tool_result env res 1000)) st1 := by
  simp only [execute_loop]
  rw [if_pos hic, hcm]
  dsimp only
  rw [hp]
  dsimp only
  rw [if_neg hne1, if_neg hne2, htool]

/-- One-step reduction: the loop guard is false — the post-loop code runs. -/
theorem execute_loop_step_done (env : AgentEnv) (mi fc fuel ic ea : Nat) (es : String)
    (track : List Turn) (st : AgentState) (hic : ¬ ic < mi) :
    execute_loop env mi fc (fuel + 1) ic ea es track st =
      finish_execution mi ic es track st := by
  simp only [execute_loop]
  rw [if_neg hic]

/-- Run of the execution loop in which every model response requests
`end_execution_loop` with the fixed non-empty summary `s`: starting at
`exit_attempts = ea` with `k` confirmations still owed (`ea + k = fc`), the
loop performs exactly `k + 1` model calls, appends exactly the `end_rounds`
turns, and returns `s`. -/
theorem execute_loop_end_run (env : AgentEnv) (resp : ChatResponse) (c : ChatChoice)
    (rest : List ChatChoice) (tc : ToolCallEntry) (tcs : List ToolCallEntry)
    (args : ToolArgs) (s : String) (mi fc : Nat)
    (hest : ∀ t, env.estimate t ≤ 13000)
    (hnet : ∀ i, env.net i true = NetOutcome.ok resp)
    (hch : resp.choices = c :: rest)
    (htc : c.message.tool_calls = tc :: tcs)
    (hname : tc.function.name = ("end_execution_loop"))
    (hjson : env.jsonParse tc.function.arguments = some args)
    (hsum : dictGet args ("summary") ("") = s)
    (hs : s ≠ ("")) :
    ∀ k fuel ic ea es track st,
      ea + k = fc → ic + k < mi → k < fuel → st.token_error_count.getD 0 < 5 →
      (execute_loop env mi fc fuel ic ea es track st).1 = Except.ok s ∧
      (execute_loop env mi fc fuel ic ea es track st).2.1 = track ++ end_rounds s ea k ∧
      (execute_loop env mi fc fuel ic ea es track st).2.2.net_calls =
        st.net_calls + (k + 1) := by
  have hparse : (parse_tool_call env resp).1 =
      some ((("end_execution_loop") : String), args) := by
    rw [← hname]
    simp [parse_tool_call, hch, htc, hjson]
  intro k
  induction k with
  | zero =>
    intro fuel ic ea es track st hea hic hfuel htec
    obtain ⟨f, rfl⟩ : ∃ f, fuel = f + 1 := ⟨fuel - 1, by omega⟩
    rw [execute_loop_step_end env mi fc f ic ea es track st resp _ _ args
      (by omega) (call_model_under_budget env true 5 resp (by rw [hch]; simp) track st htec (hest _) (hnet _))
      hparse]
    simp only [end_branch_result]
    rw [hsum, if_neg hs, if_neg (show ¬ ea < fc from by omega)]
    simp only [finish_execution]
    rw [if_neg (show ¬ ic ≥ mi from by omega)]
    refine ⟨rfl, ?_, ?_⟩
    · simp [add_assistant_message, end_rounds]
    · simp
  | succ j ih =>
    intro fuel ic ea es track st hea hic hfuel htec
    obtain ⟨f, rfl⟩ : ∃ f, fuel = f + 1 := ⟨fuel - 1, by omega⟩
    rw [execute_loop_step_end env mi fc f ic ea es track st resp _ _ args
      (by omega) (call_model_under_budget env true 5 resp (by rw [hch]; simp) track st htec (hest _) (hnet _))
      hparse]
    simp only [end_branch_result]
    rw [hsum, if_neg hs, if_pos (show ea < fc from by omega)]
    have step := ih f (ic + 1) (ea + 1) s
      (add_system_message
        (add_assistant_message track (("[end_execution_loop] Summary: ") ++ s))
        (confirmation_message ea))
      { st with
          token_error_count := some 0
          total_tokens := st.total_tokens + resp.usage.total_tokens
          net_calls := st.net_calls + 1 }
      (by omega) (by omega) (by omega) (by simp)
    refine ⟨step.1, ?_, ?_⟩
    · rw [step.2.1]
      simp [add_assistant_message, add_system_message, end_rounds, List.append_assoc]
    · rw [step.2.2]
      simp
      omega

/-- Run of the execution loop in which every model response carries no tool
call at all: each iteration appends the no-call warning and continues, the
ceiling is reached after `d = mi - ic` more iterations, the
forced-termination note is appended, and the accumulated `exit_statement`
is returned without raising. -/
theorem execute_loop_no_call_run (env : AgentEnv) (resp : ChatResponse) (c : ChatChoice)
    (rest : List ChatChoice) (mi fc : Nat)
    (hest : ∀ t, env.estimate t ≤ 13000)
    (hnet : ∀ i, env.net i true = NetOutcome.ok resp)
    (hch : resp.choices = c :: rest)
    (htc : c.message.tool_calls = []) :
    ∀ d fuel ic ea es track st,
      ic + d = mi → d < fuel → st.token_error_count.getD 0 < 5 →
      (execute_loop env mi fc fuel ic ea es track st).1 = Except.ok es ∧
      (execute_loop env mi fc fuel ic ea es track st).2.1 =
        (track ++ List.replicate d (Turn.mk Role.system noCallWarningMessage)) ++
          [Turn.mk Role.system forcedTerminationMessage] ∧
      (execute_loop env mi fc fuel ic ea es track st).2.2.net_calls = st.net_calls + d := by
  have hparse : (parse_tool_call env resp).1 = none := by
    simp [parse_tool_call, hch, htc]
  intro d
  induction d with
  | zero =>
    intro fuel ic ea es track st hmi hfuel _htec
    obtain ⟨f, rfl⟩ : ∃ f, fuel = f + 1 := ⟨fuel - 1, by omega⟩
    rw [execute_loop_step_done env mi fc f ic ea es track st (by omega)]
    simp only [finish_execution]
    rw [if_pos (show ic ≥ mi from by omega)]
    refine ⟨rfl, ?_, rfl⟩
    simp [add_system_message]
  | succ j ih =>
    intro fuel ic ea es track st hmi hfuel htec
    obtain ⟨f, rfl⟩ : ∃ f, fuel = f + 1 := ⟨fuel - 1, by omega⟩
    rw [execute_loop_step_nocall env mi fc f ic ea es track st resp _ _
      (by omega) (call_model_under_budget env true 5 resp (by rw [hch]; simp) track st htec (hest _) (hnet _))
      hparse]
    have step := ih f (ic + 1) ea es
      (add_system_message track noCallWarningMessage)
      { st with
          token_error_count := some 0
          total_tokens := st.total_tokens + resp.usage.total_tokens
          net_calls := st.net_calls + 1 }
      (by omega) (by omega) (by simp)
    refine ⟨step.1, ?_, ?_⟩
    · rw [step.2.1]
      simp [add_system_message, List.replicate_succ, List.append_assoc]
    · rw [step.2.2]
      simp
      omega

set_option maxRecDepth 4000 in
/-- A confirmation-request turn is never the forced-termination note
(their lengths differ for every attempt number). -/
theorem confirmation_message_ne_forced (n : Nat) :
    confirmation_message n ≠ forcedTerminationMessage := by
  intro h
  have h2 := congrArg String.length h
  simp only [confirmation_message, forcedTerminationMessage, String.length_append] at h2
  have hA : ("Confirmation Needed: This is your attempt ").length = 42 := by decide
  have hB : (62 : Nat) <
      (" to end the Execution Loop. Are you positive this is the final answer? If so, submit a final `end_execution_loop` call. If not, please continue working to finalize the task.\nHINT: If you have a tool to check your progress, use it!").length := by
    decide
  have hC : ("Execution stopped due to reaching the maximum iteration limit.").length = 62 := by
    decide
  omega

/-- The forced-termination turn never occurs among the turns produced by a
run of exit attempts (`end_rounds`). -/
theorem forced_not_in_end_rounds (s : String) : ∀ k ea,
    Turn.mk Role.system forcedTerminationMessage ∉ end_rounds s ea k := by
  intro k
  induction k with
  | zero =>
    intro ea hmem
    simp only [end_rounds, List.mem_singleton, Turn.mk.injEq] at hmem
    exact absurd hmem.1 (by decide)
  | succ j ih =>
    intro ea hmem
    simp only [end_rounds, List.mem_cons, Turn.mk.injEq] at hmem
    rcases hmem with h1 | h2 | h3
    · exact absurd h1.1 (by decide)
    · exact confirmation_message_ne_forced ea h2.2.symm
    · exact ih (ea + 1) h3

/-- The deliberation stage only reads the saved user input; it never
rewrites it. -/
theorem enforce_preserves_user_input (env : AgentEnv) (st : AgentState) :
    (enforce_deliberation_stage env st).2.user_input = st.user_input := by
  simp only [enforce_deliberation_stage]
  have hp := call_model_preserves env
    (add_system_message
      (add_user_message (add_system_message st.deliberation_messages DELIBERATION_MESSAGE)
        (st.user_input.getD ("")))
      st.tools_description) false 5 st
  rcases hcm : call_model env
      (add_system_message
        (add_user_message (add_system_message st.deliberation_messages DELIBERATION_MESSAGE)
          (st.user_input.getD ("")))
        st.tools_description) false 5 st with ⟨res, track1, st1⟩
  rw [hcm] at hp
  cases res with
  | error e => simpa using hp.2.1
  | ok response =>
    dsimp only
    cases hex : extract_response_content response with
    | error e => simpa using hp.2.1
    | ok plan_content => simpa using hp.2.1

/-!
## Claims
-/

/-- C5: For every model response, the Tool Call Parser returns the
(name, arguments) of the first tool-call entry only, even when the response
contains multiple tool calls; if the response has no choices or no
tool-call entries, or if the arguments text fails to parse as JSON, it
returns the no-call pair. -/
theorem claim5_parse_first_call (env : AgentEnv) (resp : ChatResponse) :
    (resp.choices = [] → parse_tool_call env resp = (none, resp)) ∧
    (∀ c rest, resp.choices = c :: rest → c.message.tool_calls = [] →
      parse_tool_call env resp = (none, resp)) ∧
    (∀ c rest tc tcs, resp.choices = c :: rest → c.message.tool_calls = tc :: tcs →
      env.jsonParse tc.function.arguments = none →
      parse_tool_call env resp = (none, resp)) ∧
    (∀ c rest tc tcs args, resp.choices = c :: rest → c.message.tool_calls = tc :: tcs →
      env.jsonParse tc.function.arguments = some args →
      parse_tool_call env resp = (some (tc.function.name, args), resp)) := by
  refine ⟨?_, ?_, ?_, ?_⟩
  · intro h
    simp [parse_tool_call, h]
  · intro c rest h1 h2
    simp [parse_tool_call, h1, h2]
  · intro c rest tc tcs h1 h2 h3
    simp [parse_tool_call, h1, h2, h3]
  · intro c rest tc tcs args h1 h2 h3
    simp [parse_tool_call, h1, h2, h3]

/-- Witness for C5 at concrete responses: a response with two simultaneous
tool calls yields the first one only; a tool-free response and a response
with undecodable arguments yield the no-call pair. -/
theorem claim5_witness :
    parse_tool_call envHappy respTwoCalls =
      (some ((("alpha") : String), [(("x"), ("1"))]), respTwoCalls) ∧
    parse_tool_call envHappy respPlan = (none, respPlan) ∧
    parse_tool_call envHappy respBadJson = (none, respBadJson) := by
  refine ⟨?_, ?_, ?_⟩
  · exact (claim5_parse_first_call envHappy respTwoCalls).2.2.2 _ _ _ _ _ rfl rfl rfl
  · exact (claim5_parse_first_call envHappy respPlan).2.1 _ _ rfl rfl
  · exact (claim5_parse_first_call envHappy respBadJson).2.2.1 _ _ _ _ rfl rfl rfl

/-- C1: For every call to the Model Gateway, if the estimated token count
of the concatenated turn contents exceeds 13000, no network request is
performed for that attempt; instead the attempt is a budget-exceeded
failure handled by the warning-and-retry protocol: a system warning turn is
appended to the same track and the call is retried (or, if this failure
exhausts the retries, the budget-exceeded error is raised), with the
network-request counter untouched by the attempt. -/
theorem claim1_preflight_guard :
    (∀ env track use_tools max_retries st,
      st.token_error_count.getD 0 + 1 < max_retries →
      env.estimate (joinContents track) > 13000 →
      call_model env track use_tools max_retries st =
        call_model env (add_system_message track tokenLimitWarningMessage) use_tools
          max_retries { st with token_error_count := some (st.token_error_count.getD 0 + 1) }) ∧
    (∀ env track use_tools max_retries st,
      st.token_error_count.getD 0 < max_retries →
      max_retries ≤ st.token_error_count.getD 0 + 1 →
      env.estimate (joinContents track) > 13000 →
      call_model env track use_tools max_retries st =
        (Except.error AgentError.tokenLimit, track,
         { st with token_error_count := some (st.token_error_count.getD 0 + 1) })) := by
  constructor
  · intro env track use_tools max_retries st h1 h2
    have lhs1 : call_model env track use_tools max_retries st =
        call_model_loop env use_tools max_retries max_retries
          (add_system_message track tokenLimitWarningMessage)
          { st with token_error_count := some (st.token_error_count.getD 0 + 1) } := by
      unfold call_model
      simp only [call_model_loop, Option.getD_some]
      rw [if_pos (by omega)]
      rw [if_pos (by simpa [num_tokens_from_string] using h2)]
      rw [if_neg (by omega)]
    rw [lhs1]
    have h3 := call_model_loop_fuel_succ env use_tools max_retries max_retries
      (add_system_message track tokenLimitWarningMessage)
      { st with token_error_count := some (st.token_error_count.getD 0 + 1) }
      (by simp)
    rw [h3]
    rfl
  · intro env track use_tools max_retries st h1 h2 h3
    unfold call_model
    simp only [call_model_loop, Option.getD_some]
    rw [if_pos (by omega)]
    rw [if_pos (by simpa [num_tokens_from_string] using h3)]
    rw [if_pos (by omega)]

/-- Witness for C1: on an always-over-budget environment, a call with a
fresh counter equals the retried call on the warning-extended track with
counter 1; with the counter one short of the limit, the call raises the
budget error with the track unchanged and no network request performed. -/
theorem claim1_witness :
    call_model envBudget [Turn.mk Role.system ("hi")] true 5 (init_agent_state ("")) =
      call_model envBudget
        (add_system_message [Turn.mk Role.system ("hi")] tokenLimitWarningMessage) true 5
        { init_agent_state ("") with token_error_count := some 1 } ∧
    call_model envBudget [Turn.mk Role.system ("hi")] true 5
        { init_agent_state ("") with token_error_count := some 4 } =
      (Except.error AgentError.tokenLimit, [Turn.mk Role.system ("hi")],
       { init_agent_state ("") with token_error_count := some 5 }) := by
  constructor
  · exact claim1_preflight_guard.1 envBudget [Turn.mk Role.system ("hi")] true 5
      (init_agent_state ("")) (by decide) (by decide)
  · exact claim1_preflight_guard.2 envBudget [Turn.mk Role.system ("hi")] true 5
      { init_agent_state ("") with token_error_count := some 4 } (by decide) (by decide)
      (by decide)

/-- Counterexample for C7 as stated: a Model Gateway call on an over-budget
track mutates the track (budget warnings are appended by `_call_model`
itself), so the turns after the call differ from the turns before it. -/
theorem claim7_counterexample :
    (call_model envBudget [Turn.mk Role.system ("hi")] true 5 (init_agent_state (""))).2.1 ≠
      [Turn.mk Role.system ("hi")] := by
  decide

/-- Every exit of the retry loop returns the input track extended by zero or
more budget-warning turns: appends through the ValueError retry handler are
the only track mutation the loop performs. -/
theorem call_model_loop_track_extends (env : AgentEnv) (use_tools : Bool)
    (max_retries : Nat) :
    ∀ fuel track st, ∃ n,
      (call_model_loop env use_tools max_retries fuel track st).2.1 =
        track ++ warnTurns n := by
  intro fuel
  induction fuel with
  | zero =>
    intro track st
    exact ⟨0, by simp [call_model_loop, warnTurns_zero]⟩
  | succ f ih =>
    intro track st
    simp only [call_model_loop]
    by_cases hg : st.token_error_count.getD 0 < max_retries
    · rw [if_pos hg]
      by_cases hov :
          num_tokens_from_string env (joinContents track) ("cl100k_base") > 13000
      · rw [if_pos hov]
        by_cases hmax :
            (some (st.token_error_count.getD 0 + 1) : Option Nat).getD 0 ≥ max_retries
        · rw [if_pos hmax]
          exact ⟨0, by simp [warnTurns_zero]⟩
        · rw [if_neg hmax]
          obtain ⟨n, hn⟩ := ih (add_system_message track tokenLimitWarningMessage)
            { st with token_error_count := some (st.token_error_count.getD 0 + 1) }
          refine ⟨n + 1, ?_⟩
          rw [hn]
          have h1 : add_system_message track tokenLimitWarningMessage =
              track ++ [tokenWarnTurn] := rfl
          rw [h1, warnTurns_snoc_comm]
      · rw [if_neg hov]
        cases hnet : env.net st.net_calls use_tools with
        | err m => exact ⟨0, by simp [warnTurns_zero]⟩
        | ok r =>
          dsimp only
          cases hex : extract_response_content (some r) with
          | ok c => exact ⟨0, by simp [warnTurns_zero]⟩
          | error e =>
            by_cases hmax :
                (some (st.token_error_count.getD 0 + 1) : Option Nat).getD 0 ≥ max_retries
            · rw [if_pos hmax]
              exact ⟨0, by simp [warnTurns_zero]⟩
            · rw [if_neg hmax]
              obtain ⟨n, hn⟩ := ih (add_system_message track tokenLimitWarningMessage)
                { st with
                    net_calls := st.net_calls + 1
                    token_error_count := some (st.token_error_count.getD 0 + 1) }
              refine ⟨n + 1, ?_⟩
              rw [hn]
              have h1 : add_system_message track tokenLimitWarningMessage =
                  track ++ [tokenWarnTurn] := rfl
              rw [h1, warnTurns_snoc_comm]
    · rw [if_neg hg]
      exact ⟨0, by simp [warnTurns_zero]⟩

/-- C7 amended: the only effect a Model Gateway call has on the track is
appending system warning turns through the `except ValueError` retry
protocol (triggered by the budget guard or by a malformed model response):
the returned track always equals the input track followed by zero or more
warning turns, and on a call whose pre-flight estimate is within budget and
whose network outcome is not a malformed (empty-choices) response, the
track is returned exactly unchanged. -/
theorem claim7_warning_appends_only :
    (∀ env track use_tools max_retries st,
      ∃ n, (call_model env track use_tools max_retries st).2.1 = track ++ warnTurns n) ∧
    (∀ env track use_tools max_retries st,
      env.estimate (joinContents track) ≤ 13000 →
      (∀ r, env.net st.net_calls use_tools = NetOutcome.ok r → r.choices ≠ []) →
      (call_model env track use_tools max_retries st).2.1 = track) := by
  constructor
  · intro env track use_tools max_retries st
    exact call_model_loop_track_extends env use_tools max_retries (max_retries + 1) track
      { st with token_error_count := some (st.token_error_count.getD 0) }
  · intro env track use_tools max_retries st h hr
    unfold call_model
    simp only [call_model_loop, Option.getD_some]
    by_cases hg : st.token_error_count.getD 0 < max_retries
    · rw [if_pos hg]
      rw [if_neg (show ¬ num_tokens_from_string env (joinContents track) ("cl100k_base") >
          13000 from by simp [num_tokens_from_string]; omega)]
      cases hnet : env.net st.net_calls use_tools with
      | err m => simp
      | ok r =>
        dsimp only
        obtain ⟨c, rest, hcr⟩ := List.exists_cons_of_ne_nil (hr r hnet)
        have hex : extract_response_content (some r) = Except.ok c.message.content := by
          simp [extract_response_content, hcr]
        rw [hex]
    · rw [if_neg hg]

/-- Witness for C7 (amended): an over-budget call leaves the track extended
by warning turns only; an in-budget call with a well-formed response
returns the track exactly as it was. -/
theorem claim7_witness :
    (∃ n, (call_model envBudget [Turn.mk Role.system ("hi")] true 5
        (init_agent_state (""))).2.1 = [Turn.mk Role.system ("hi")] ++ warnTurns n) ∧
    (call_model envHappy [Turn.mk Role.system ("hi")] true 5 (init_agent_state (""))).2.1 =
      [Turn.mk Role.system ("hi")] := by
  constructor
  · exact claim7_warning_appends_only.1 envBudget [Turn.mk Role.system ("hi")] true 5
      (init_agent_state (""))
  · refine claim7_warning_appends_only.2 envHappy [Turn.mk Role.system ("hi")] true 5
      (init_agent_state ("")) (by decide) ?_
    intro r hr
    have h2 : NetOutcome.ok respPlan = NetOutcome.ok r := hr
    injection h2 with h3
    rw [← h3]
    decide

/-- Once set, the retry counter attribute stays set through the retry loop. -/
theorem call_model_loop_tec_isSome (env : AgentEnv) (use_tools : Bool) (max_retries : Nat) :
    ∀ fuel track st, st.token_error_count.isSome →
      ((call_model_loop env use_tools max_retries fuel track st).2.2.token_error_count).isSome := by
  intro fuel
  induction fuel with
  | zero =>
    intro track st h
    simpa [call_model_loop] using h
  | succ f ih =>
    intro track st h
    simp only [call_model_loop]
    by_cases hg : st.token_error_count.getD 0 < max_retries
    · rw [if_pos hg]
      by_cases hov :
          num_tokens_from_string env (joinContents track) ("cl100k_base") > 13000
      · rw [if_pos hov]
        by_cases hmax :
            (some (st.token_error_count.getD 0 + 1) : Option Nat).getD 0 ≥ max_retries
        · rw [if_pos hmax]
          simp
        · rw [if_neg hmax]
          exact ih (add_system_message track tokenLimitWarningMessage)
            { st with token_error_count := some (st.token_error_count.getD 0 + 1) } (by simp)
      · rw [if_neg hov]
        cases hnet : env.net st.net_calls use_tools with
        | err m => simpa using h
        | ok r =>
          dsimp only
          cases hex : extract_response_content (some r) with
          | ok c => simp
          | error e =>
            by_cases hmax :
                (some (st.token_error_count.getD 0 + 1) : Option Nat).getD 0 ≥ max_retries
            · rw [if_pos hmax]
              simp
            · rw [if_neg hmax]
              exact ih (add_system_message track tokenLimitWarningMessage)
                { st with
                    net_calls := st.net_calls + 1
                    token_error_count := some (st.token_error_count.getD 0 + 1) } (by simp)
    · rw [if_neg hg]
      simpa using h

/-- Counterexample for C9 as stated: `token_error_count` is neither
re-initialized at the start of an invocation nor discarded at its return.
An invocation that exhausts the budget retries leaves the counter at 5 on
the instance; a later invocation on a state carrying that leftover counter
fails (with the invalid-response error caused by `_call_model` returning
`None`), while the identical invocation on a fresh state succeeds — so the
outcome depends on the leftover count. -/
theorem claim9_counterexample :
    (process_user_input envBudget (init_agent_state ("")) ("task")).2.token_error_count =
      some 5 ∧
    (process_user_input envHappy
        { init_agent_state ("") with token_error_count := some 5 } ("task")).1 =
      Except.error AgentError.invalidResponse ∧
    (process_user_input envHappy (init_agent_state ("")) ("task")).1 =
      Except.ok ("done") := by
  exact ⟨by decide, by decide, by decide⟩

/-- C9 amended: `token_error_count` is a lazily created instance attribute
that persists across invocations (it is never discarded — after any
`_call_model` it is set), and it is not re-initialized on entry: if a
previous invocation left it at or above `max_retries`, the next
`_call_model` performs no estimate and no network request and returns
`None` immediately, so the outcome of an invocation can depend on the
leftover count. -/
theorem claim9_token_error_persistence :
    (∀ env track use_tools max_retries st,
      max_retries ≤ st.token_error_count.getD 0 →
      call_model env track use_tools max_retries st =
        (Except.ok none, track,
         { st with token_error_count := some (st.token_error_count.getD 0) })) ∧
    (∀ env track use_tools max_retries st,
      ((call_model env track use_tools max_retries st).2.2.token_error_count).isSome) := by
  constructor
  · intro env track use_tools max_retries st h
    unfold call_model
    simp only [call_model_loop, Option.getD_some]
    rw [if_neg (by omega)]
  · intro env track use_tools max_retries st
    exact call_model_loop_tec_isSome env use_tools max_retries (max_retries + 1) track
      { st with token_error_count := some (st.token_error_count.getD 0) } (by simp)

/-- Witness for C9 (amended): with a leftover counter of 7 ≥ 5, the call
returns `None` leaving the counter in place; and after any call the counter
attribute exists. -/
theorem claim9_witness :
    call_model envHappy [Turn.mk Role.system ("hi")] false 5
        { init_agent_state ("") with token_error_count := some 7 } =
      (Except.ok none, [Turn.mk Role.system ("hi")],
       { init_agent_state ("") with token_error_count := some 7 }) ∧
    ((call_model envHappy [Turn.mk Role.system ("hi")] true 5
        (init_agent_state (""))).2.2.token_error_count).isSome := by
  constructor
  · exact claim9_token_error_persistence.1 envHappy [Turn.mk Role.system ("hi")] false 5
      { init_agent_state ("") with token_error_count := some 7 } (by decide)
  · exact claim9_token_error_persistence.2 envHappy [Turn.mk Role.system ("hi")] true 5
      (init_agent_state (""))

/-- C2: On a fresh agent instance, exactly `max_retries = 5` consecutive
budget-exceeded pre-flight failures make `process_user_input` raise the
distinguishable budget-exceeded error (not return an empty or silent
result); fewer than `max_retries` consecutive failures followed by a
successful attempt (an in-budget request answered with a well-formed
response) do not raise, and the failure counter is reset to zero by the
successful model call. -/
theorem claim2_retry_exhaustion :
    (∀ env td msg,
      (∀ i, i < 5 →
        env.estimate (joinContents
          (add_system_message
            (add_user_message
              (add_system_message (init_agent_state td).deliberation_messages
                DELIBERATION_MESSAGE)
              msg)
            td ++ warnTurns i)) > 13000) →
      (process_user_input env (init_agent_state td) msg).1 =
        Except.error AgentError.tokenLimit) ∧
    (∀ env use_tools track st k resp,
      st.token_error_count = none → k < 5 →
      resp.choices ≠ [] →
      (∀ i, i < k → env.estimate (joinContents (track ++ warnTurns i)) > 13000) →
      env.estimate (joinContents (track ++ warnTurns k)) ≤ 13000 →
      env.net st.net_calls use_tools = NetOutcome.ok resp →
      call_model env track use_tools 5 st =
        (Except.ok (some resp), track ++ warnTurns k,
         { st with
             token_error_count := some 0
             total_tokens := st.total_tokens + resp.usage.total_tokens
             net_calls := st.net_calls + 1 })) := by
  constructor
  · intro env td msg hover
    have hcm := call_model_all_over env false 5
      (add_system_message
        (add_user_message
          (add_system_message (init_agent_state td).deliberation_messages
            DELIBERATION_MESSAGE)
          msg)
        td)
      { init_agent_state td with user_input := some msg }
      (by simp [init_agent_state])
      (by
        intro i hi
        apply hover i
        simp only [init_agent_state] at hi
        simpa using hi)
    simp only [process_user_input, enforce_deliberation_stage]
    simp only [init_agent_state, Option.getD_some] at hcm ⊢
    rw [hcm]
  · intro env use_tools track st k resp htec hk hwf hover hunder hnet
    exact call_model_success env use_tools 5 resp hwf k track st
      (by rw [htec]; simpa using hk) hover hunder hnet

/-- Witness for C2: an always-over-budget environment makes a fresh
invocation raise the budget error after the five pre-flight failures; an
environment whose single budget failure is followed by an in-budget attempt
returns the response without raising (with the counter reset inside the
returned state). -/
theorem claim2_witness :
    (process_user_input envBudget (init_agent_state ("")) ("task")).1 =
      Except.error AgentError.tokenLimit ∧
    (call_model envOneFail [Turn.mk Role.system ("x")] false 5 (init_agent_state (""))).1 =
      Except.ok (some respPlan) := by
  constructor
  · refine claim2_retry_exhaustion.1 envBudget ("") ("task") ?_
    intro i hi
    show (13000 : Nat) < 20000
    decide
  · rw [claim2_retry_exhaustion.2 envOneFail false [Turn.mk Role.system ("x")]
      (init_agent_state ("")) 1 respPlan rfl (by omega) (by decide)
      (by
        intro i hi
        have : i = 0 := by omega
        subst this
        decide)
      (by decide) rfl]

/-- Counterexample for C3 as stated: an `end_execution_loop` call without a
summary argument is accepted as termination.  With the default
`final_checks = 0`, a run whose single execution-stage response calls
`end_execution_loop` with no summary ends immediately: `process_user_input`
returns the placeholder summary after exactly two model calls (one
deliberation, one execution) — no retry-for-a-proper-summary happens. -/
theorem claim3_counterexample :
    (process_user_input envEmptySummary (init_agent_state ("")) ("task")).1 =
      Except.ok ("No summary provided by end_execution_loop.") ∧
    (process_user_input envEmptySummary (init_agent_state ("")) ("task")).2.net_calls = 2 := by
  exact ⟨by decide, by decide⟩

/-- C3 amended: a missing/empty `summary` in an `end_execution_loop` call is
not raised to the caller — the fixed placeholder summary is substituted and
echoed into the track — but the call is still honored as a normal exit
attempt: once `exit_attempts` has reached `final_checks`, the loop
terminates with the placeholder as its result rather than re-prompting the
model for a proper summary.  (The `ValueError` in the standalone
`end_execution_loop` tool function is never invoked by the loop.) -/
theorem claim3_empty_summary_placeholder (env : AgentEnv) (mi fc fuel ic ea : Nat)
    (es : String) (track : List Turn) (st : AgentState) (resp : ChatResponse)
    (track1 : List Turn) (st1 : AgentState) (args : ToolArgs)
    (hic : ic < mi)
    (hcm : call_model env track true 5 st = (Except.ok (some resp), track1, st1))
    (hp : (parse_tool_call env resp).1 = some ((("end_execution_loop") : String), args))
    (hempty : dictGet args ("summary") ("") = (""))
    (hea : ¬ ea < fc) :
    (execute_loop env mi fc (fuel + 1) ic ea es track st).1 =
      Except.ok ("No summary provided by end_execution_loop.") := by
  rw [execute_loop_step_end env mi fc fuel ic ea es track st resp track1 st1 args hic
    hcm hp]
  simp only [end_branch_result]
  rw [hempty, if_pos rfl, if_neg hea]
  simp only [finish_execution]
  by_cases h : ic ≥ mi
  · rw [if_pos h]
  · rw [if_neg h]

/-- Witness for C3 (amended): the concrete empty-summary exit call ends the
loop with the placeholder summary. -/
theorem claim3_witness :
    (execute_loop envEmptySummary 99 0 (98 + 1) 0 0 ("") [Turn.mk Role.system ("hi")]
        { init_agent_state ("") with net_calls := 1 }).1 =
      Except.ok ("No summary provided by end_execution_loop.") := by
  exact claim3_empty_summary_placeholder envEmptySummary 99 0 98 0 0 ("")
    [Turn.mk Role.system ("hi")] { init_agent_state ("") with net_calls := 1 }
    respEndEmpty [Turn.mk Role.system ("hi")]
    { init_agent_state ("") with token_error_count := some 0, total_tokens := 5, net_calls := 2 }
    [] (by omega) (by decide) (by decide) (by decide) (by omega)

/-- C8: Any exception during a single execution-loop iteration other than
the (internally retried) budget condition — a failing network request
surfacing from the model call, or a raising tool handler — is propagated to
the caller immediately and unrecovered: the loop returns that error rather
than continuing to the next iteration. -/
theorem claim8_error_propagation :
    (∀ env mi fc fuel ic ea es track st e track1 st1,
      ic < mi →
      call_model env track true 5 st = (Except.error e, track1, st1) →
      execute_loop env mi fc (fuel + 1) ic ea es track st = (Except.error e, track1, st1)) ∧
    (∀ env mi fc fuel ic ea es track st resp track1 st1 fname args m,
      ic < mi →
      call_model env track true 5 st = (Except.ok (some resp), track1, st1) →
      (parse_tool_call env resp).1 = some (fname, args) →
      fname ≠ ("") →
      fname ≠ ("end_execution_loop") →
      env.handleTool fname args = Except.error m →
      execute_loop env mi fc (fuel + 1) ic ea es track st =
        (Except.error (AgentError.tool m), track1, st1)) := by
  constructor
  · intro env mi fc fuel ic ea es track st e track1 st1 hic hcm
    exact execute_loop_step_err env mi fc fuel ic ea es track st e track1 st1 hic hcm
  · intro env mi fc fuel ic ea es track st resp track1 st1 fname args m hic hcm hp h1 h2 ht
    exact execute_loop_step_tool_err env mi fc fuel ic ea es track st resp track1 st1
      fname args m hic hcm hp h1 h2 ht

/-- Witness for C8: a network failure and a raising `echo` tool handler each
abort the loop immediately with the corresponding error. -/
theorem claim8_witness :
    (execute_loop envNetErr 9 0 (3 + 1) 0 0 ("") [Turn.mk Role.system ("hi")]
        (init_agent_state (""))).1 = Except.error (AgentError.net ("down")) ∧
    (execute_loop envToolErr 9 0 (3 + 1) 0 0 ("") [Turn.mk Role.system ("hi")]
        (init_agent_state (""))).1 = Except.error (AgentError.tool ("boom")) := by
  constructor
  · rw [claim8_error_propagation.1 envNetErr 9 0 3 0 0 ("") [Turn.mk Role.system ("hi")]
      (init_agent_state ("")) (AgentError.net ("down")) [Turn.mk Role.system ("hi")]
      { init_agent_state ("") with token_error_count := some 0, net_calls := 1 }
      (by omega) (by decide)]
  · rw [claim8_error_propagation.2 envToolErr 9 0 3 0 0 ("") [Turn.mk Role.system ("hi")]
      (init_agent_state ("")) respToolCall [Turn.mk Role.system ("hi")]
      { init_agent_state ("") with
          token_error_count := some 0, total_tokens := 4, net_calls := 1 }
      ("echo") [(("x"), ("1"))] ("boom")
      (by omega) (by decide) (by decide) (by decide) (by decide) rfl]

/-- C4: In a run of the execution loop with `final_checks = N` in which the
model keeps requesting `end_execution_loop` with a fixed non-empty summary,
termination is accepted only after exactly `N` additional
`end_execution_loop` calls beyond the first — each refused attempt
appending a confirmation-request turn (numbered by the current
`exit_attempts`) after the echoed summary — for `N + 1` model calls in
total; with `N = 0` the first call terminates the loop immediately with its
summary as the result. -/
theorem claim4_final_checks (env : AgentEnv) (resp : ChatResponse) (c : ChatChoice)
    (rest : List ChatChoice) (tc : ToolCallEntry) (tcs : List ToolCallEntry)
    (args : ToolArgs) (s : String) (N mi : Nat) (plan : String) (st : AgentState)
    (hest : ∀ t, env.estimate t ≤ 13000)
    (hnet : ∀ i, env.net i true = NetOutcome.ok resp)
    (hch : resp.choices = c :: rest)
    (htc : c.message.tool_calls = tc :: tcs)
    (hname : tc.function.name = ("end_execution_loop"))
    (hjson : env.jsonParse tc.function.arguments = some args)
    (hsum : dictGet args ("summary") ("") = s)
    (hs : s ≠ (""))
    (htec : st.token_error_count.getD 0 < 5)
    (hN : N < mi) :
    (execute_plan env plan mi N st).1 = Except.ok s ∧
    (execute_plan env plan mi N st).2.execution_messages =
      (add_system_message
        (add_user_message (add_system_message st.execution_messages EXECUTION_MESSAGE)
          (st.user_input.getD ("")))
        (("Deliberation Plan: ") ++ plan)) ++ end_rounds s 0 N ∧
    (execute_plan env plan mi N st).2.net_calls = st.net_calls + (N + 1) := by
  have run := execute_loop_end_run env resp c rest tc tcs args s mi N hest hnet hch htc
    hname hjson hsum hs N (mi + 1) 0 0 ("")
    (add_system_message
      (add_user_message (add_system_message st.execution_messages EXECUTION_MESSAGE)
        (st.user_input.getD ("")))
      (("Deliberation Plan: ") ++ plan))
    st (by omega) (by omega) (by omega) htec
  refine ⟨?_, ?_, ?_⟩
  · simp only [execute_plan]
    exact run.1
  · simp only [execute_plan]
    exact run.2.1
  · simp only [execute_plan]
    exact run.2.2

/-- Witness for C4: with `final_checks = 2`, the run accepts termination on
the third `end_execution_loop("done")` call (three model calls in total)
and returns `"done"`. -/
theorem claim4_witness :
    (execute_plan envEndAlways ("p") 9 2 (init_agent_state (""))).1 =
      Except.ok ("done") ∧
    (execute_plan envEndAlways ("p") 9 2 (init_agent_state (""))).2.net_calls = 0 + (2 + 1) := by
  have h := claim4_final_checks envEndAlways respEndDone
    { message :=
        { content := ("")
          tool_calls := [{ function := { name := ("end_execution_loop"), arguments := ("A1") } }] } }
    [] { function := { name := ("end_execution_loop"), arguments := ("A1") } } []
    [(("summary"), ("done"))] ("done") 2 9 ("p") (init_agent_state (""))
    (by intro t; show (0 : Nat) ≤ 13000; decide)
    (by intro i; rfl)
    rfl rfl rfl rfl rfl (by decide) (by decide) (by decide)
  exact ⟨h.1, h.2.2⟩

/-- C6: If the execution loop ends because `iteration_count` reached
`max_iterations` without an accepted `end_execution_loop` (here: the model
never requests any tool call), a system turn noting forced termination is
appended to the execution track and the accumulated `exit_statement` (the
empty string) is returned to the caller without raising.  When the loop
exits via an accepted `end_execution_loop` instead, the final track is the
setup plus the exit rounds, and the forced-termination turn is not among
those appended turns. -/
theorem claim6_forced_termination :
    (∀ env resp c rest plan mi fc st,
      (∀ t, env.estimate t ≤ 13000) →
      (∀ i, env.net i true = NetOutcome.ok resp) →
      resp.choices = c :: rest →
      c.message.tool_calls = [] →
      st.token_error_count.getD 0 < 5 →
      (execute_plan env plan mi fc st).1 = Except.ok ("") ∧
      (execute_plan env plan mi fc st).2.execution_messages =
        ((add_system_message
            (add_user_message (add_system_message st.execution_messages EXECUTION_MESSAGE)
              (st.user_input.getD ("")))
            (("Deliberation Plan: ") ++ plan)) ++
          List.replicate mi (Turn.mk Role.system noCallWarningMessage)) ++
          [Turn.mk Role.system forcedTerminationMessage]) ∧
    (∀ env resp c rest tc tcs args s N mi plan st,
      (∀ t, env.estimate t ≤ 13000) →
      (∀ i, env.net i true = NetOutcome.ok resp) →
      resp.choices = c :: rest →
      c.message.tool_calls = tc :: tcs →
      tc.function.name = ("end_execution_loop") →
      env.jsonParse tc.function.arguments = some args →
      dictGet args ("summary") ("") = s →
      s ≠ ("") →
      st.token_error_count.getD 0 < 5 →
      N < mi →
      (execute_plan env plan mi N st).2.execution_messages =
        (add_system_message
          (add_user_message (add_system_message st.execution_messages EXECUTION_MESSAGE)
            (st.user_input.getD ("")))
          (("Deliberation Plan: ") ++ plan)) ++ end_rounds s 0 N ∧
      Turn.mk Role.system forcedTerminationMessage ∉ end_rounds s 0 N) := by
  constructor
  · intro env resp c rest plan mi fc st hest hnet hch htc htec
    have run := execute_loop_no_call_run env resp c rest mi fc hest hnet hch htc mi
      (mi + 1) 0 0 ("")
      (add_system_message
        (add_user_message (add_system_message st.execution_messages EXECUTION_MESSAGE)
          (st.user_input.getD ("")))
        (("Deliberation Plan: ") ++ plan))
      st (by omega) (by omega) htec
    constructor
    · simp only [execute_plan]
      exact run.1
    · simp only [execute_plan]
      exact run.2.1
  · intro env resp c rest tc tcs args s N mi plan st hest hnet hch htc hname hjson hsum
      hs htec hN
    have run := execute_loop_end_run env resp c rest tc tcs args s mi N hest hnet hch htc
      hname hjson hsum hs N (mi + 1) 0 0 ("")
      (add_system_message
        (add_user_message (add_system_message st.execution_messages EXECUTION_MESSAGE)
          (st.user_input.getD ("")))
        (("Deliberation Plan: ") ++ plan))
      st (by omega) (by omega) (by omega) htec
    constructor
    · simp only [execute_plan]
      exact run.2.1
    · exact forced_not_in_end_rounds s N 0

/-- Witness for C6: a run that never calls a tool for `max_iterations = 2`
returns the empty summary with the forced-termination turn at the end of
the track, while an accepted-exit run leaves no forced-termination turn
among its appended turns. -/
theorem claim6_witness :
    (execute_plan envNoCall ("p") 2 0 (init_agent_state (""))).1 = Except.ok ("") ∧
    Turn.mk Role.system forcedTerminationMessage ∉ end_rounds ("done") 0 1 := by
  constructor
  · exact (claim6_forced_termination.1 envNoCall respPlan
      { message := { content := ("the plan"), tool_calls := [] } } [] ("p") 2 0
      (init_agent_state (""))
      (by intro t; show (0 : Nat) ≤ 13000; decide)
      (by intro i; rfl) rfl rfl (by decide)).1
  · exact (claim6_forced_termination.2 envEndAlways respEndDone
      { message :=
          { content := ("")
            tool_calls := [{ function := { name := ("end_execution_loop"), arguments := ("A1") } }] } }
      [] { function := { name := ("end_execution_loop"), arguments := ("A1") } } []
      [(("summary"), ("done"))] ("done") 1 9 ("p") (init_agent_state (""))
      (by intro t; show (0 : Nat) ≤ 13000; decide)
      (by intro i; rfl)
      rfl rfl rfl rfl rfl (by decide) (by decide) (by decide)).2

/-- C10: On every `process_user_input` run whose deliberation stage
succeeds with plan `plan`, the user input is appended to the execution
track twice before the first execution-stage model call: once (by
`process_user_input`) just before the execution-stage instruction turn, and
once more (by `_execute_plan`) between the instruction turn and the
"Deliberation Plan: …" turn; the execution loop then starts on exactly that
track. -/
theorem claim10_double_user_append (env : AgentEnv) (st : AgentState) (msg plan : String)
    (st1 : AgentState)
    (hdel : enforce_deliberation_stage env { st with user_input := some msg } =
      (Except.ok plan, st1)) :
    process_user_input env st msg =
      (let track0 := st1.execution_messages ++
         [Turn.mk Role.user msg, Turn.mk Role.system EXECUTION_MESSAGE,
          Turn.mk Role.user msg,
          Turn.mk Role.system (("Deliberation Plan: ") ++ plan)]
       let r := execute_loop env 99 0 (99 + 1) 0 0 ("") track0
         { st1 with execution_messages := add_user_message st1.execution_messages msg }
       (r.1, { r.2.2 with execution_messages := r.2.1 })) := by
  have hui : st1.user_input = some msg := by
    have hp := enforce_preserves_user_input env { st with user_input := some msg }
    rw [hdel] at hp
    simpa using hp
  simp only [process_user_input]
  rw [hdel]
  simp only [execute_plan, add_user_message, add_system_message, hui, Option.getD_some,
    List.append_assoc, List.cons_append, List.nil_append, List.singleton_append]

/-- Witness for C10: the concrete happy-path run enters the execution loop
on a track carrying the user input both before the execution instruction
and between the instruction and the plan turn. -/
theorem claim10_witness :
    process_user_input envHappy (init_agent_state ("")) ("task") =
      (let track0 := stAfterDelib.execution_messages ++
         [Turn.mk Role.user ("task"), Turn.mk Role.system EXECUTION_MESSAGE,
          Turn.mk Role.user ("task"),
          Turn.mk Role.system (("Deliberation Plan: ") ++ ("the plan"))]
       let r := execute_loop envHappy 99 0 (99 + 1) 0 0 ("") track0
         { stAfterDelib with
             execution_messages := add_user_message stAfterDelib.execution_messages ("task") }
       (r.1, { r.2.2 with execution_messages := r.2.1 })) := by
  exact claim10_double_user_append envHappy (init_agent_state ("")) ("task") ("the plan")
    stAfterDelib (by decide)
